import Mathlib

/-!
Shallow embedding of `src/kudu/hms/mini_hms.{h,cc}` (class `kudu::hms::MiniHms`),
a lifecycle supervisor for an external Hive Metastore process used in tests.

Modelling conventions:
- Machine state is the private fields of `MiniHms` (`hms_process_`,
  `notification_log_ttl_`, `port_`, and the four Kerberos fields).
- All interaction with the operating system (environment variables, the
  filesystem, process spawning, TCP-bind observation, signal delivery) is
  captured by an explicit oracle record `World` passed to each operation,
  so every operation is a pure Lean function.
- A glog `CHECK(cond)` failure aborts the process; it is modelled as the
  outcome `ErrS.precondition` with the checked condition's text, leaving the
  state unchanged, matching the spec's abstraction of invalid-state calls as
  precondition errors.
- `MonoDelta` durations are modelled as whole seconds (`Nat`); every duration
  in the code and the spec is constructed via `MonoDelta::FromSeconds`.
- Each lifecycle operation additionally returns a trace of externally visible
  actions (files written, process spawned, signals sent), so that claims about
  command lines, generated configuration files and signals can be stated.
-/

/-- Protection levels of `kudu::rpc::SaslProtection` (from `sasl_common.h`,
outside the given sources). Modelled from the spec: an enumeration
Authentication / Integrity / Privacy that the core passes through. -/
inductive SaslProtection
  | kAuthentication
  | kIntegrity
  | kPrivacy
deriving DecidableEq, Repr

/-- Modelled from the spec: `SaslProtection::name_of`, the protection-level
name rendered into the service config (`sasl_common` is outside the given
sources). -/
def SaslProtection.nameOf : SaslProtection → String
  | .kAuthentication => "authentication"
  | .kIntegrity => "integrity"
  | .kPrivacy => "privacy"

/-- Signals used by `MiniHms` (`SIGTERM` for stop, `SIGSTOP` for pause,
`SIGCONT` for resume, `SIGQUIT` for aborting a half-started process). -/
inductive Signal
  | sigterm
  | sigstop
  | sigcont
  | sigquit
deriving DecidableEq, Repr

/-- Error kinds of `kudu::Status` as used by `mini_hms.cc`, plus
`precondition` for a failed glog `CHECK` (a process abort, abstracted by the
spec as a precondition error). -/
inductive ErrS
  | notFound (msg : String) (path : String)
  | timedOut (msg : String)
  | ioError (msg : String)
  | runtimeError (msg : String)
  | precondition (cond : String)
deriving DecidableEq, Repr

/-- The part of a `kudu::Subprocess` handle the model tracks: the child pid,
assigned once the OS child has been created (`none` for a `Subprocess` object
whose `Start()` failed). -/
structure Subp where
  pid : Option Nat
deriving DecidableEq, Repr

/-- The private state of `kudu::hms::MiniHms`. The `paused` flag is ghost
state modelled from the spec: it records whether the live process was last
sent `SIGSTOP` without a later `SIGCONT`, so that the spec's `Paused` state is
expressible; the C++ code keeps no such field and never consults it. -/
structure MiniHms where
  hms_process : Option Subp
  notification_log_ttl : Nat
  port : Nat
  krb5_conf : String
  service_principal : String
  keytab_file : String
  protection : SaslProtection
  paused : Bool
deriving DecidableEq, Repr

/-- A freshly constructed `MiniHms`: no process, TTL 86400 s, port 0,
empty Kerberos configuration, protection `kAuthentication`. -/
def MiniHms.init : MiniHms :=
  { hms_process := none
    notification_log_ttl := 86400
    port := 0
    krb5_conf := ""
    service_principal := ""
    keytab_file := ""
    protection := .kAuthentication
    paused := false }

/-- Oracle for everything the code reads from or does to the operating
system. `bindObserved p` is the port observed bound by the child within the
60-second deadline when the configured port is `p` (with `p = 0` meaning an
ephemeral port, per the spec), or `none` when the wait times out. -/
structure World where
  getenv : String → Option String
  fileExists : String → Bool
  executablePath : Option String
  testDataDirectory : String
  writeFileOk : String → Bool
  spawnResult : Option Nat
  bindObserved : Nat → Option Nat
  killOk : Signal → Bool
  killAndWaitOk : Signal → Bool

/-- Externally visible actions performed by a lifecycle operation. -/
inductive HmsAction
  | writeFile (path : String) (contents : String)
  | spawn (argv : List String) (envVars : List (String × String))
  | kill (sig : Signal)
  | killAndWait (sig : Signal)
deriving DecidableEq, Repr

instance {ε α : Type} [DecidableEq ε] [DecidableEq α] : DecidableEq (Except ε α) := fun a b =>
  match a, b with
  | .ok x, .ok y => decidable_of_iff (x = y) (by simp)
  | .error x, .error y => decidable_of_iff (x = y) (by simp)
  | .ok _, .error _ => .isFalse (fun h => Except.noConfusion h)
  | .error _, .ok _ => .isFalse (fun h => Except.noConfusion h)

/-- Result of a lifecycle operation: the returned `Status`, the state of the
`MiniHms` object afterwards, and the trace of external actions performed. -/
structure OpResult where
  status : Except ErrS Unit
  state : MiniHms
  trace : List HmsAction
deriving DecidableEq, Repr

/-- Modelled from the spec: `JoinPathSegments` from `path_util` (outside the
given sources) — the candidate path is `searchBaseDir/<dependencyName>-home`,
i.e. the two segments joined with a slash. -/
def joinPathSegments (a b : String) : String :=
  a ++ ("/") ++ b

/-- Modelled from the spec: `DirName` from `path_util` (outside the given
sources) — the directory containing the test binary. -/
def dirName (path : String) : String :=
  match (path.splitOn ("/")).dropLast with
  | [] => "."
  | ps => String.intercalate ("/") ps

/-- `ToUpperCase` from `string_case` (outside the given sources). Modelled
from the spec: the dependency name is upper-cased (ASCII, character by
character). -/
def toUpperCase (s : String) : String :=
  String.mk (s.data.map Char.toUpper)

/-- `FindHomeDir` from `mini_hms.cc`: upper-case the dependency name, append
`_HOME` to form the override environment variable; use its value verbatim
when set, otherwise `bin_dir/<name>-home`; verify existence, returning
`NotFound` naming the variable and the attempted path when absent. Ambient
`getenv` and `Env::FileExists` are injected through `World`. -/
def FindHomeDir (w : World) (name : String) (bin_dir : String) : Except ErrS String :=
  let name_upper := toUpperCase name
  let env_var := name_upper ++ ("_HOME")
  let home_dir :=
    match w.getenv env_var with
    | none => joinPathSegments bin_dir (name ++ ("-home"))
    | some v => v
  if w.fileExists home_dir then
    .ok home_dir
  else
    .error (.notFound (env_var ++ (" directory does not exist")) home_dir)

/-- Literal text of the `hive-site.xml` raw-string template up to the first
`$1` (warehouse directory) insertion point. -/
def hiveTpl0 : String :=
  "\n<configuration>\n  <property>\n    <name>hive.metastore.transactional.event.listeners</name>\n    <value>\n      org.apache.hive.hcatalog.listener.DbNotificationListener,\n      org.apache.kudu.hive.metastore.KuduMetastorePlugin\n    </value>\n  </property>\n\n  <property>\n    <name>datanucleus.schema.autoCreateAll</name>\n    <value>true</value>\n  </property>\n\n  <property>\n    <name>hive.metastore.schema.verification</name>\n    <value>false</value>\n  </property>\n\n  <property>\n    <name>hive.metastore.warehouse.dir</name>\n    <value>file://"

/-- Template text between the warehouse `$1` and the ConnectionURL `$1`. -/
def hiveTpl1 : String :=
  "/warehouse/</value>\n  </property>\n\n  <property>\n    <name>javax.jdo.option.ConnectionURL</name>\n    <value>jdbc:derby:memory:"

/-- Template text between the ConnectionURL `$1` and the notification-log
TTL `$0`. -/
def hiveTpl2 : String :=
  "/metadb;create=true</value>\n  </property>\n\n  <property>\n    <name>hive.metastore.event.db.listener.timetolive</name>\n    <value>"

/-- Template text between the TTL value (the template reads `$0s`: the
number followed by the unit suffix, grouped into `hiveSiteTtlValue`) and the
SASL-enabled `$2`. -/
def hiveTpl3 : String :=
  "</value>\n  </property>\n\n  <property>\n    <name>hive.metastore.sasl.enabled</name>\n    <value>"

/-- Template text between the SASL-enabled `$2` and the keytab-file `$3`. -/
def hiveTpl4 : String :=
  "</value>\n  </property>\n\n  <property>\n    <name>hive.metastore.kerberos.keytab.file</name>\n    <value>"

/-- Template text between the keytab-file `$3` and the principal `$4`. -/
def hiveTpl5 : String :=
  "</value>\n  </property>\n\n  <property>\n    <name>hive.metastore.kerberos.principal</name>\n    <value>"

/-- Template text between the principal `$4` and the protection `$5`. -/
def hiveTpl6 : String :=
  "</value>\n  </property>\n\n  <property>\n    <name>hadoop.rpc.protection</name>\n    <value>"

/-- Closing text of the `hive-site.xml` template. -/
def hiveTpl7 : String :=
  "</value>\n  </property>\n</configuration>\n  "

/-- Value rendered for `hive.metastore.event.db.listener.timetolive`:
`notification_log_ttl_.ToSeconds()` substituted for `$0` in the template,
followed by the literal unit suffix `s` written next to `$0` in the
template. -/
def hiveSiteTtlValue (s : MiniHms) : String :=
  toString s.notification_log_ttl ++ ("s")

/-- Value rendered for `hive.metastore.sasl.enabled`:
`!keytab_file_.empty()` as rendered by `strings::Substitute`. -/
def hiveSiteSaslEnabled (s : MiniHms) : String :=
  if s.keytab_file = "" then "false" else "true"

/-- The `file_contents` computed by `MiniHms::CreateHiveSite`:
the template with `$0` = TTL seconds, `$1` = `tmp_dir` (twice),
`$2` = SASL enabled, `$3` = keytab file, `$4` = service principal,
`$5` = protection-level name. -/
def CreateHiveSiteContents (s : MiniHms) (tmp_dir : String) : String :=
  hiveTpl0 ++ tmp_dir ++ hiveTpl1 ++ tmp_dir ++ hiveTpl2 ++
    hiveSiteTtlValue s ++ hiveTpl3 ++ hiveSiteSaslEnabled s ++ hiveTpl4 ++
    s.keytab_file ++ hiveTpl5 ++ s.service_principal ++ hiveTpl6 ++
    SaslProtection.nameOf s.protection ++ hiveTpl7

/-- Opening text of the `core-site.xml` template, up to the `$0`
authentication-mode insertion point. -/
def coreTpl0 : String :=
  "\n<configuration>\n  <property>\n    <name>hadoop.security.authentication</name>\n    <value>"

/-- Closing text of the `core-site.xml` template. -/
def coreTpl1 : String :=
  "</value>\n  </property>\n</configuration>\n  "

/-- Value rendered for `hadoop.security.authentication`:
`keytab_file_.empty() ? "simple" : "kerberos"`. -/
def coreSiteAuthentication (s : MiniHms) : String :=
  if s.keytab_file = "" then "simple" else "kerberos"

/-- The `file_contents` computed by `MiniHms::CreateCoreSite`. -/
def CreateCoreSiteContents (s : MiniHms) : String :=
  coreTpl0 ++ coreSiteAuthentication s ++ coreTpl1

/-- `MiniHms::EnableKerberos`: `CHECK(!hms_process_)` and three non-empty
argument checks, then move the four arguments into the state. The C++
function returns `void`; the `Except` component records whether a `CHECK`
aborted the call. -/
def MiniHms.EnableKerberos (s : MiniHms) (krb5_conf service_principal keytab_file : String)
    (protection : SaslProtection) : Except ErrS Unit × MiniHms :=
  if s.hms_process.isSome then
    (.error (.precondition ("!hms_process_")), s)
  else if krb5_conf = "" then
    (.error (.precondition ("!krb5_conf.empty()")), s)
  else if service_principal = "" then
    (.error (.precondition ("!service_principal.empty()")), s)
  else if keytab_file = "" then
    (.error (.precondition ("!keytab_file.empty()")), s)
  else
    (.ok (), { s with
      krb5_conf := krb5_conf
      service_principal := service_principal
      keytab_file := keytab_file
      protection := protection })

/-- `MiniHms::SetNotificationLogTtl` as written in `mini_hms.h`:
`CHECK(hms_process_); notification_log_ttl_ = ttl;` — the `CHECK` demands a
live process handle. -/
def MiniHms.SetNotificationLogTtl (s : MiniHms) (ttl : Nat) : Except ErrS Unit × MiniHms :=
  if s.hms_process.isSome then
    (.ok (), { s with notification_log_ttl := ttl })
  else
    (.error (.precondition ("hms_process_")), s)

/-- Modelled from the spec: `WaitForTcpBind(pid, &port_, 60s)` from
`net_util` (outside the given sources) — the ReadinessWaiter polls until a
socket bound by the child is observed or the fixed 60-second deadline
elapses (a `TimedOut` status). On success with a configured port of 0 the
observed ephemeral port is stored into `port_`; a nonzero configured port is
re-verified and left unchanged. -/
def waitForTcpBind (w : World) (port : Nat) : Except ErrS Nat :=
  match w.bindObserved port with
  | none => .error (.timedOut ("timed out waiting for HMS port"))
  | some p => .ok (if port = 0 then p else port)

/-- The `JAVA_TOOL_OPTIONS` value built by `MiniHms::Start`: log-level flags,
plus a `-Djava.security.krb5.conf` flag when Kerberos is configured. -/
def javaToolOptions (s : MiniHms) : String :=
  ("-Dhive.log.level=WARN -Dhive.root.logger=console") ++
    (if s.krb5_conf = "" then "" else (" -Djava.security.krb5.conf=") ++ s.krb5_conf)

/-- The command line built by `MiniHms::Start`:
`$hive_home/bin/hive --service metastore -v -p $port_`. -/
def hmsArgv (hive_home : String) (port : Nat) : List String :=
  [hive_home ++ ("/bin/hive"), ("--service"), ("metastore"), ("-v"), ("-p"), toString port]

/-- The environment map built by `MiniHms::Start` (insertion order of the
C++ initializer list). -/
def hmsEnvVars (s : MiniHms) (java_home hadoop_home aux_jars tmp_dir : String) :
    List (String × String) :=
  [(("JAVA_HOME"), java_home),
   (("HADOOP_HOME"), hadoop_home),
   (("HIVE_AUX_JARS_PATH"), aux_jars),
   (("HIVE_CONF_DIR"), tmp_dir),
   (("JAVA_TOOL_OPTIONS"), javaToolOptions s),
   (("HADOOP_CONF_DIR"), tmp_dir)]

/-- `MiniHms::Start`: `CHECK(!hms_process_)`; resolve the executable
directory and the hadoop/hive/java home directories; write `hive-site.xml`
and `core-site.xml` into the test data directory; build the environment map
and command line; spawn the process (`hms_process_` is reset to the new
`Subprocess` object before its `Start()` is attempted, so the handle is
retained even when the spawn fails); then wait up to 60 s for the TCP bind,
sending `SIGQUIT` (best effort, unwaited) and propagating the wait status on
timeout. Note that on a wait failure `hms_process_` is NOT cleared. -/
def MiniHms.Start (w : World) (s : MiniHms) : OpResult :=
  if s.hms_process.isSome then
    { status := .error (.precondition ("!hms_process_")), state := s, trace := [] }
  else
    match w.executablePath with
    | none =>
        { status := .error (.runtimeError ("GetExecutablePath failed")), state := s, trace := [] }
    | some exe =>
      let bin_dir := dirName exe
      match FindHomeDir w ("hadoop") bin_dir with
      | .error e => { status := .error e, state := s, trace := [] }
      | .ok hadoop_home =>
      match FindHomeDir w ("hive") bin_dir with
      | .error e => { status := .error e, state := s, trace := [] }
      | .ok hive_home =>
      match FindHomeDir w ("java") bin_dir with
      | .error e => { status := .error e, state := s, trace := [] }
      | .ok java_home =>
      let tmp_dir := w.testDataDirectory
      let hivePath := joinPathSegments tmp_dir ("hive-site.xml")
      let corePath := joinPathSegments tmp_dir ("core-site.xml")
      if w.writeFileOk hivePath then
        let hiveAct := HmsAction.writeFile hivePath (CreateHiveSiteContents s tmp_dir)
        if w.writeFileOk corePath then
          let coreAct := HmsAction.writeFile corePath (CreateCoreSiteContents s)
          let aux_jars := bin_dir ++ ("/hms-plugin.jar")
          let argv := hmsArgv hive_home s.port
          let env_vars := hmsEnvVars s java_home hadoop_home aux_jars tmp_dir
          let spawnAct := HmsAction.spawn argv env_vars
          match w.spawnResult with
          | none =>
              { status := .error (.runtimeError ("failed to start HMS subprocess"))
                state := { s with hms_process := some { pid := none }, paused := false }
                trace := [hiveAct, coreAct, spawnAct] }
          | some pid =>
              let s2 := { s with hms_process := some { pid := some pid }, paused := false }
              match waitForTcpBind w s.port with
              | .error e =>
                  { status := .error e
                    state := s2
                    trace := [hiveAct, coreAct, spawnAct, HmsAction.kill .sigquit] }
              | .ok p =>
                  { status := .ok ()
                    state := { s2 with port := p }
                    trace := [hiveAct, coreAct, spawnAct] }
        else
          { status := .error (.ioError ("failed to write core-site.xml"))
            state := s
            trace := [hiveAct] }
      else
        { status := .error (.ioError ("failed to write hive-site.xml")), state := s, trace := [] }

/-- `MiniHms::Stop`: when a process handle exists it is moved out of
`hms_process_` (leaving the field null) BEFORE `KillAndWait(SIGTERM)` is
attempted; a kill/wait failure is propagated with the prefix
`failed to stop the Hive MetaStore process`. With no handle, `Stop` returns
OK without doing anything. -/
def MiniHms.Stop (w : World) (s : MiniHms) : OpResult :=
  match s.hms_process with
  | none => { status := .ok (), state := s, trace := [] }
  | some _ =>
    let s2 := { s with hms_process := none }
    if w.killAndWaitOk .sigterm then
      { status := .ok (), state := s2, trace := [HmsAction.killAndWait .sigterm] }
    else
      { status := .error (.runtimeError ("failed to stop the Hive MetaStore process"))
        state := s2
        trace := [HmsAction.killAndWait .sigterm] }

/-- `MiniHms::Pause`: `CHECK(hms_process_)`, then `Kill(SIGSTOP)`, with a
delivery failure propagated with the prefix
`failed to pause the Hive MetaStore process`. The ghost `paused` flag is set
when the signal is delivered. -/
def MiniHms.Pause (w : World) (s : MiniHms) : OpResult :=
  match s.hms_process with
  | none => { status := .error (.precondition ("hms_process_")), state := s, trace := [] }
  | some _ =>
    if w.killOk .sigstop then
      { status := .ok (), state := { s with paused := true }, trace := [HmsAction.kill .sigstop] }
    else
      { status := .error (.runtimeError ("failed to pause the Hive MetaStore process"))
        state := s
        trace := [HmsAction.kill .sigstop] }

/-- `MiniHms::Resume`: `CHECK(hms_process_)`, then `Kill(SIGCONT)`, with a
delivery failure propagated with the prefix
`failed to unpause the Hive MetaStore process`. The ghost `paused` flag is
cleared when the signal is delivered. -/
def MiniHms.Resume (w : World) (s : MiniHms) : OpResult :=
  match s.hms_process with
  | none => { status := .error (.precondition ("hms_process_")), state := s, trace := [] }
  | some _ =>
    if w.killOk .sigcont then
      { status := .ok (), state := { s with paused := false }, trace := [HmsAction.kill .sigcont] }
    else
      { status := .error (.runtimeError ("failed to unpause the Hive MetaStore process"))
        state := s
        trace := [HmsAction.kill .sigcont] }

/-- A fully cooperative operating-system oracle: no override environment
variables, every directory exists, every file write succeeds, the spawn
yields pid 42, and the child binds its port (ephemeral port 9083) within the
deadline. -/
def wAllOk : World :=
  { getenv := fun _ => none
    fileExists := fun _ => true
    executablePath := some ("/opt/bin/exe")
    testDataDirectory := "/tmp/hms-test"
    writeFileOk := fun _ => true
    spawnResult := some 42
    bindObserved := fun p => some (if p = 0 then 9083 else p)
    killOk := fun _ => true
    killAndWaitOk := fun _ => true }

/-- Like `wAllOk`, but the child never binds its port: the readiness wait
times out. -/
def wTimeout : World :=
  { wAllOk with bindObserved := fun _ => none }

/-- Like `wAllOk`, but `KillAndWait` fails. -/
def wKillFail : World :=
  { wAllOk with killAndWaitOk := fun _ => false }

/-- An oracle with no override environment variables and no existing
directories, for exercising dependency-resolution failures. -/
def wAbsent : World :=
  { wAllOk with fileExists := fun _ => false }

/-- An instance with a live child process (pid 7), as after a successful
`Start`. -/
def sLive : MiniHms :=
  { MiniHms.init with hms_process := some { pid := some 7 } }

/-- The Running state reached from a fresh instance by one successful
`Start` under `wAllOk`; it was never paused. -/
def sRunning : MiniHms :=
  (MiniHms.Start wAllOk MiniHms.init).state

/-- Claim C7: for every dependency name and search base directory, the
resolver forms the override variable by upper-casing the name and appending
`_HOME`; if set, its value is used verbatim, otherwise the candidate is
`searchBaseDir/<name>-home`; a missing path yields `NotFound` naming the
variable and the attempted path, and otherwise the resolved path is
returned. -/
theorem FindHomeDir_resolution (w : World) (name bin_dir : String) :
    (w.getenv (toUpperCase name ++ ("_HOME")) = none →
      w.fileExists (joinPathSegments bin_dir (name ++ ("-home"))) = false →
      FindHomeDir w name bin_dir =
        .error (.notFound (toUpperCase name ++ ("_HOME") ++ (" directory does not exist"))
          (joinPathSegments bin_dir (name ++ ("-home"))))) ∧
    (w.getenv (toUpperCase name ++ ("_HOME")) = none →
      w.fileExists (joinPathSegments bin_dir (name ++ ("-home"))) = true →
      FindHomeDir w name bin_dir = .ok (joinPathSegments bin_dir (name ++ ("-home")))) ∧
    (∀ v, w.getenv (toUpperCase name ++ ("_HOME")) = some v → w.fileExists v = true →
      FindHomeDir w name bin_dir = .ok v) ∧
    (∀ v, w.getenv (toUpperCase name ++ ("_HOME")) = some v → w.fileExists v = false →
      FindHomeDir w name bin_dir =
        .error (.notFound (toUpperCase name ++ ("_HOME") ++ (" directory does not exist")) v)) := by
  refine ⟨fun h1 h2 => ?_, fun h1 h2 => ?_, fun v h1 h2 => ?_, fun v h1 h2 => ?_⟩ <;>
    simp [FindHomeDir, h1, h2]

/-- Witness for C7: resolving `hive` under `/opt/bin` with no override set
and no directory present yields `NotFound` naming `HIVE_HOME` and
`/opt/bin/hive-home`. -/
theorem FindHomeDir_resolution_witness :
    FindHomeDir wAbsent ("hive") ("/opt/bin") =
      .error (.notFound ("HIVE_HOME directory does not exist") ("/opt/bin/hive-home")) := by
  have h := (FindHomeDir_resolution wAbsent ("hive") ("/opt/bin")).1 rfl rfl
  rw [h]; decide

/-- Claim C2 (code bug): `SetNotificationLogTtl` is documented
(`mini_hms.h`) as callable only before `Start`, i.e. while the instance is
Stopped, but the code reads `CHECK(hms_process_)`: on a Stopped instance
(no process handle) the check fires and nothing is updated, while on a live
instance the call succeeds — the inverse of the documented contract. -/
theorem SetNotificationLogTtl_check_inverted :
    (MiniHms.SetNotificationLogTtl MiniHms.init 3600).1 =
        .error (.precondition ("hms_process_")) ∧
    (MiniHms.SetNotificationLogTtl MiniHms.init 3600).2 = MiniHms.init ∧
    (MiniHms.SetNotificationLogTtl sLive 3600).1 = .ok () := by
  decide

/-- Claim C9 (code bug): the scenario `SetNotificationLogTtl(3600s)` on a
fresh instance aborts on `CHECK(hms_process_)` instead of succeeding; the
rendering itself is as claimed: a TTL field of 3600 renders as `3600s` in
`hive-site.xml`, and the default 86400 renders as `86400s`. -/
theorem notification_ttl_scenario :
    (MiniHms.SetNotificationLogTtl MiniHms.init 3600).2.notification_log_ttl = 86400 ∧
    hiveSiteTtlValue { MiniHms.init with notification_log_ttl := 3600 } = "3600s" ∧
    hiveSiteTtlValue MiniHms.init = "86400s" ∧
    (MiniHms.SetNotificationLogTtl sLive 3600).2.notification_log_ttl = 3600 := by
  decide

/-- Claim C8: `Stop` is idempotent — the second of two consecutive `Stop`
calls always returns success, and `Stop` on an already-Stopped instance is a
no-op returning success. -/
theorem Stop_idempotent (s : MiniHms) (w1 w2 : World) :
    (MiniHms.Stop w2 (MiniHms.Stop w1 s).state).status = .ok () ∧
    (s.hms_process = none →
      MiniHms.Stop w1 s = { status := .ok (), state := s, trace := [] }) := by
  constructor
  · cases h : s.hms_process with
    | none => simp [MiniHms.Stop, h]
    | some p =>
        by_cases hk : w1.killAndWaitOk .sigterm <;> simp [MiniHms.Stop, h, hk]
  · intro h
    simp [MiniHms.Stop, h]

/-- Witness for C8: on a fresh (Stopped) instance, two consecutive `Stop`
calls both succeed and the first is a no-op. -/
theorem Stop_idempotent_witness :
    (MiniHms.Stop wAllOk (MiniHms.Stop wAllOk MiniHms.init).state).status = .ok () ∧
    MiniHms.Stop wAllOk MiniHms.init =
      { status := .ok (), state := MiniHms.init, trace := [] } :=
  ⟨(Stop_idempotent MiniHms.init wAllOk wAllOk).1,
   (Stop_idempotent MiniHms.init wAllOk wAllOk).2 rfl⟩

/-- Claim C10: `Stop` moves the process handle out before attempting the
kill, so after `Stop` returns — success or failure — the instance holds no
process handle; a further `Stop` succeeds, and the no-live-process
precondition of `Start` is re-established even when `Stop` surfaced an
error. -/
theorem Stop_releases_handle (s : MiniHms) (w : World) (h : s.hms_process.isSome = true) :
    (MiniHms.Stop w s).state.hms_process = none ∧
    (w.killAndWaitOk .sigterm = false →
      (MiniHms.Stop w s).status =
        .error (.runtimeError ("failed to stop the Hive MetaStore process")) ∧
      (MiniHms.Stop w s).state.hms_process = none) ∧
    (∀ w2, (MiniHms.Stop w2 (MiniHms.Stop w s).state).status = .ok ()) := by
  cases hp : s.hms_process with
  | none => rw [hp] at h; simp at h
  | some p =>
      by_cases hk : w.killAndWaitOk .sigterm <;>
        simp [MiniHms.Stop, hp, hk]

/-- Witness for C10: on a live instance whose kill fails, `Stop` surfaces
the error yet clears the process handle. -/
theorem Stop_releases_handle_witness :
    (MiniHms.Stop wKillFail sLive).state.hms_process = none ∧
    (MiniHms.Stop wKillFail sLive).status =
      .error (.runtimeError ("failed to stop the Hive MetaStore process")) :=
  ⟨(Stop_releases_handle sLive wKillFail rfl).1,
   ((Stop_releases_handle sLive wKillFail rfl).2.1 rfl).1⟩

/-- Counterexample for C3: a second `EnableKerberos` before any `Start`
succeeds (the code only checks `!hms_process_`, not prior configuration) and
overwrites the previously stored configuration, contradicting the claim that
it must fail with a precondition error leaving the configuration
unchanged. -/
theorem EnableKerberos_twice_counterexample :
    ((MiniHms.EnableKerberos
        (MiniHms.EnableKerberos MiniHms.init ("krb5A") ("principalA") ("keytabA")
          .kAuthentication).2
        ("krb5B") ("principalB") ("keytabB") .kPrivacy).1 = .ok ()) ∧
    ((MiniHms.EnableKerberos
        (MiniHms.EnableKerberos MiniHms.init ("krb5A") ("principalA") ("keytabA")
          .kAuthentication).2
        ("krb5B") ("principalB") ("keytabB") .kPrivacy).2.keytab_file = "keytabB") := by
  decide

/-- Claim C3 (amended): `EnableKerberos` checks only that no process is
currently live — while the process runs it fails the precondition check
leaving the stored configuration unchanged, but whenever no process is live
(including a repeated call before `Start`, or a call after `Stop`) it
succeeds with non-empty arguments and overwrites the stored security
configuration. -/
theorem EnableKerberos_liveness_check (s : MiniHms) (k p kt : String)
    (prot : SaslProtection) :
    (s.hms_process.isSome = true →
      MiniHms.EnableKerberos s k p kt prot = (.error (.precondition ("!hms_process_")), s)) ∧
    (s.hms_process = none → k ≠ "" → p ≠ "" → kt ≠ "" →
      MiniHms.EnableKerberos s k p kt prot =
        (.ok (), { s with
          krb5_conf := k
          service_principal := p
          keytab_file := kt
          protection := prot })) := by
  constructor
  · intro h
    simp [MiniHms.EnableKerberos, h]
  · intro h hk hp hkt
    simp [MiniHms.EnableKerberos, h, hk, hp, hkt]

/-- Witness for C3 (amended): on a live instance, `EnableKerberos` fails the
precondition check and leaves the state unchanged. -/
theorem EnableKerberos_liveness_check_witness :
    MiniHms.EnableKerberos sLive ("krb5C") ("principalC") ("keytabC") .kPrivacy =
      (.error (.precondition ("!hms_process_")), sLive) :=
  (EnableKerberos_liveness_check sLive ("krb5C") ("principalC") ("keytabC") .kPrivacy).1 rfl

/-- Counterexample for C4: a Running instance reached by one successful
`Start` — so not in the Paused state — nevertheless gets a successful
`Resume` (the code checks only for a live process handle), contradicting the
claim that `Resume` on a non-Paused instance fails with a precondition
error. -/
theorem Resume_running_counterexample :
    sRunning.paused = false ∧
    sRunning.hms_process.isSome = true ∧
    (MiniHms.Resume wAllOk sRunning).status = .ok () := by
  decide

/-- Claim C4 (amended): `Pause` and `Resume` on an instance with no live
process (Stopped) fail with a precondition error leaving the state and trace
untouched; but on a live instance `Resume` succeeds whenever the signal is
delivered, whether or not the instance is paused — the code checks
process-handle liveness, not pausedness. -/
theorem Pause_Resume_liveness (w : World) (s : MiniHms) :
    (s.hms_process = none →
      MiniHms.Pause w s =
        { status := .error (.precondition ("hms_process_")), state := s, trace := [] } ∧
      MiniHms.Resume w s =
        { status := .error (.precondition ("hms_process_")), state := s, trace := [] }) ∧
    (s.hms_process.isSome = true → w.killOk .sigcont = true →
      (MiniHms.Resume w s).status = .ok ()) := by
  constructor
  · intro h
    constructor <;> simp [MiniHms.Pause, MiniHms.Resume, h]
  · intro h hk
    cases hp : s.hms_process with
    | none => rw [hp] at h; simp at h
    | some p => simp [MiniHms.Resume, hp, hk]

/-- Witness for C4 (amended): `Pause` on a fresh (Stopped) instance fails
with the precondition error and changes nothing. -/
theorem Pause_Resume_liveness_witness :
    MiniHms.Pause wAllOk MiniHms.init =
      { status := .error (.precondition ("hms_process_"))
        state := MiniHms.init
        trace := [] } :=
  ((Pause_Resume_liveness wAllOk MiniHms.init).1 rfl).1

/-- Counterexample for C1: with every prior step succeeding but the bind
never observed, `Start` returns the timeout error and sends the abort
(quit) signal — but it retains the process handle, so the instance is NOT
left in the Stopped state (and a direct retry of `Start` would fail its
no-live-process precondition). -/
theorem Start_timeout_counterexample :
    (MiniHms.Start wTimeout MiniHms.init).status =
        .error (.timedOut ("timed out waiting for HMS port")) ∧
    (MiniHms.Start wTimeout MiniHms.init).trace.getLast? =
        some (HmsAction.kill .sigquit) ∧
    (MiniHms.Start wTimeout MiniHms.init).state.hms_process = some { pid := some 42 } ∧
    (MiniHms.Start wTimeout
        (MiniHms.Start wTimeout MiniHms.init).state).status =
      .error (.precondition ("!hms_process_")) := by
  decide

/-- Claim C1 (amended): for a Stopped instance whose dependency resolution,
config writes and spawn all succeed, `Start` succeeds if and only if the
spawned process binds its port within the 60-second deadline; when the bind
is not observed in time, `Start` sends the abort (quit) signal and returns
the timeout error — but it retains the live process handle (sending only an
unwaited best-effort `SIGQUIT`), so the instance is not left in the Stopped
state and an explicit `Stop` is needed before `Start` can be retried. -/
theorem Start_bind_deadline (w : World) (s : MiniHms) (exe : String) (pid : Nat)
    (h0 : s.hms_process = none)
    (hexe : w.executablePath = some exe)
    (henv : ∀ v, w.getenv v = none)
    (hfx : ∀ p, w.fileExists p = true)
    (hw : ∀ p, w.writeFileOk p = true)
    (hsp : w.spawnResult = some pid) :
    ((MiniHms.Start w s).status = .ok () ↔ (w.bindObserved s.port).isSome = true) ∧
    (w.bindObserved s.port = none →
      (MiniHms.Start w s).status = .error (.timedOut ("timed out waiting for HMS port")) ∧
      HmsAction.kill .sigquit ∈ (MiniHms.Start w s).trace ∧
      (MiniHms.Start w s).state.hms_process = some { pid := some pid }) := by
  constructor
  · cases hb : w.bindObserved s.port with
    | none =>
        simp [MiniHms.Start, FindHomeDir, waitForTcpBind, h0, hexe, henv, hfx, hw, hsp, hb]
    | some p =>
        simp [MiniHms.Start, FindHomeDir, waitForTcpBind, h0, hexe, henv, hfx, hw, hsp, hb]
  · intro hb
    refine ⟨?_, ?_, ?_⟩ <;>
      simp [MiniHms.Start, FindHomeDir, waitForTcpBind, h0, hexe, henv, hfx, hw, hsp, hb]

/-- Witness for C1 (amended): under the fully cooperative oracle the bind is
observed and `Start` on a fresh instance succeeds. -/
theorem Start_bind_deadline_witness :
    (MiniHms.Start wAllOk MiniHms.init).status = .ok () :=
  (Start_bind_deadline wAllOk MiniHms.init ("/opt/bin/exe") 42 rfl rfl
    (fun _ => rfl) (fun _ => rfl) (fun _ => rfl) rfl).1.mpr rfl

/-- Helper: `Stop` never modifies the `port_` field. -/
theorem Stop_preserves_port_field (w : World) (s : MiniHms) :
    (MiniHms.Stop w s).state.port = s.port := by
  cases h : s.hms_process with
  | none => simp [MiniHms.Stop, h]
  | some p => by_cases hk : w.killAndWaitOk .sigterm <;> simp [MiniHms.Stop, h, hk]

/-- Helper: any spawn action emitted by `Start` uses the command line
`hmsArgv hive_home s.port`, i.e. ends in `-p <port_>` for the port stored in
the state at the time of the call. -/
theorem Start_spawn_argv (w : World) (s : MiniHms) (argv : List String)
    (envv : List (String × String))
    (h : HmsAction.spawn argv envv ∈ (MiniHms.Start w s).trace) :
    ∃ hive_home, argv = hmsArgv hive_home s.port := by
  unfold MiniHms.Start at h
  split at h
  · simp at h
  · cases hexe : w.executablePath with
    | none => rw [hexe] at h; simp at h
    | some exe =>
    rw [hexe] at h
    dsimp only at h
    cases hh : FindHomeDir w ("hadoop") (dirName exe) with
    | error e => rw [hh] at h; simp at h
    | ok hadoop_home =>
    rw [hh] at h
    dsimp only at h
    cases hv : FindHomeDir w ("hive") (dirName exe) with
    | error e => rw [hv] at h; simp at h
    | ok hive_home =>
    rw [hv] at h
    dsimp only at h
    cases hj : FindHomeDir w ("java") (dirName exe) with
    | error e => rw [hj] at h; simp at h
    | ok java_home =>
    rw [hj] at h
    by_cases h1 : w.writeFileOk (joinPathSegments w.testDataDirectory ("hive-site.xml")) = true
    · by_cases h2 : w.writeFileOk (joinPathSegments w.testDataDirectory ("core-site.xml")) = true
      · cases hsp : w.spawnResult with
        | none =>
            rw [hsp] at h
            simp [h1, h2] at h
            exact ⟨hive_home, h.1⟩
        | some pid =>
        rw [hsp] at h
        dsimp only at h
        cases hwb : waitForTcpBind w s.port with
        | error e =>
            rw [hwb] at h
            simp [h1, h2] at h
            exact ⟨hive_home, h.1⟩
        | ok p =>
            rw [hwb] at h
            simp [h1, h2] at h
            exact ⟨hive_home, h.1⟩
      · simp [h1, h2] at h
    · simp [h1] at h

/-- Claim C5: port stickiness across restarts — after a successful `Start`,
`Stop` preserves the `port_` field, and any process spawn performed by a
subsequent `Start` puts that same port number on the command line
(`-p <port>`, the last two entries of `hmsArgv`). -/
theorem restart_same_port (w1 w2 w3 : World) (s : MiniHms)
    (_hstart : (MiniHms.Start w1 s).status = .ok ()) :
    ((MiniHms.Stop w2 (MiniHms.Start w1 s).state).state.port =
        (MiniHms.Start w1 s).state.port) ∧
    (∀ argv envv,
      HmsAction.spawn argv envv ∈
        (MiniHms.Start w3 (MiniHms.Stop w2 (MiniHms.Start w1 s).state).state).trace →
      argv.drop 4 = [("-p"), toString ((MiniHms.Start w1 s).state.port)]) := by
  refine ⟨Stop_preserves_port_field w2 _, fun argv envv hmem => ?_⟩
  obtain ⟨hive_home, he⟩ := Start_spawn_argv _ _ _ _ hmem
  rw [Stop_preserves_port_field] at he
  rw [he]
  rfl

/-- Witness for C5: a concrete successful `Start`/`Stop` cycle under the
cooperative oracle preserves the bound port (9083) through `Stop`. -/
theorem restart_same_port_witness :
    (MiniHms.Stop wAllOk (MiniHms.Start wAllOk MiniHms.init).state).state.port =
      (MiniHms.Start wAllOk MiniHms.init).state.port :=
  (restart_same_port wAllOk wAllOk wAllOk MiniHms.init (by decide)).1

/-- Helper: every file written by `Start` is either `hive-site.xml` with
contents `CreateHiveSiteContents` or `core-site.xml` with contents
`CreateCoreSiteContents`, rendered from the state at the time of the
call. -/
theorem Start_writes (w : World) (s : MiniHms) (path c : String)
    (h : HmsAction.writeFile path c ∈ (MiniHms.Start w s).trace) :
    (path = joinPathSegments w.testDataDirectory ("hive-site.xml") ∧
      c = CreateHiveSiteContents s w.testDataDirectory) ∨
    (path = joinPathSegments w.testDataDirectory ("core-site.xml") ∧
      c = CreateCoreSiteContents s) := by
  unfold MiniHms.Start at h
  split at h
  · simp at h
  · cases hexe : w.executablePath with
    | none => rw [hexe] at h; simp at h
    | some exe =>
    rw [hexe] at h
    dsimp only at h
    cases hh : FindHomeDir w ("hadoop") (dirName exe) with
    | error e => rw [hh] at h; simp at h
    | ok hadoop_home =>
    rw [hh] at h
    dsimp only at h
    cases hv : FindHomeDir w ("hive") (dirName exe) with
    | error e => rw [hv] at h; simp at h
    | ok hive_home =>
    rw [hv] at h
    dsimp only at h
    cases hj : FindHomeDir w ("java") (dirName exe) with
    | error e => rw [hj] at h; simp at h
    | ok java_home =>
    rw [hj] at h
    dsimp only at h
    by_cases h1 : w.writeFileOk (joinPathSegments w.testDataDirectory ("hive-site.xml")) = true
    · by_cases h2 : w.writeFileOk (joinPathSegments w.testDataDirectory ("core-site.xml")) = true
      · cases hsp : w.spawnResult with
        | none =>
            rw [hsp] at h
            simp [h1, h2] at h
            rcases h with ⟨hp, hc⟩ | ⟨hp, hc⟩
            · exact Or.inl ⟨hp, hc⟩
            · exact Or.inr ⟨hp, hc⟩
        | some pid =>
        rw [hsp] at h
        dsimp only at h
        cases hwb : waitForTcpBind w s.port with
        | error e =>
            rw [hwb] at h
            simp [h1, h2] at h
            rcases h with ⟨hp, hc⟩ | ⟨hp, hc⟩
            · exact Or.inl ⟨hp, hc⟩
            · exact Or.inr ⟨hp, hc⟩
        | ok p =>
            rw [hwb] at h
            simp [h1, h2] at h
            rcases h with ⟨hp, hc⟩ | ⟨hp, hc⟩
            · exact Or.inl ⟨hp, hc⟩
            · exact Or.inr ⟨hp, hc⟩
      · simp [h1, h2] at h
        exact Or.inl ⟨h.1, h.2⟩
    · simp [h1] at h

/-- Claim C6: `EnableKerberos` with non-empty arguments on a fresh instance
succeeds, and any `Start` from the resulting state writes a `core-site.xml`
whose authentication-mode value is `kerberos` and a `hive-site.xml` whose
SASL-enabled value renders `true` with the stored keytab path and principal
equal to the supplied values; for any state on which `EnableKerberos` was
never called (keytab still empty, as in the fresh instance) the mode value
is `simple` and the SASL-enabled value renders `false`. -/
theorem kerberos_config_rendering (w : World) (k p kt : String) (prot : SaslProtection)
    (hk : k ≠ "") (hp : p ≠ "") (hkt : kt ≠ "") :
    ((MiniHms.EnableKerberos MiniHms.init k p kt prot).1 = .ok ()) ∧
    (coreSiteAuthentication (MiniHms.EnableKerberos MiniHms.init k p kt prot).2
        = "kerberos") ∧
    (hiveSiteSaslEnabled (MiniHms.EnableKerberos MiniHms.init k p kt prot).2 = "true") ∧
    ((MiniHms.EnableKerberos MiniHms.init k p kt prot).2.keytab_file = kt) ∧
    ((MiniHms.EnableKerberos MiniHms.init k p kt prot).2.service_principal = p) ∧
    (∀ s path c, HmsAction.writeFile path c ∈ (MiniHms.Start w s).trace →
      (path = joinPathSegments w.testDataDirectory ("core-site.xml") →
        c = coreTpl0 ++ coreSiteAuthentication s ++ coreTpl1) ∧
      (path = joinPathSegments w.testDataDirectory ("hive-site.xml") →
        c = CreateHiveSiteContents s w.testDataDirectory)) ∧
    (∀ s0 : MiniHms, s0.keytab_file = "" →
      coreSiteAuthentication s0 = "simple" ∧ hiveSiteSaslEnabled s0 = "false") := by
  have hdistinct : joinPathSegments w.testDataDirectory ("core-site.xml") ≠
      joinPathSegments w.testDataDirectory ("hive-site.xml") := by
    intro hcontra
    have := congrArg (fun t => t.data.reverse) hcontra
    simp [joinPathSegments] at this
  refine ⟨?_, ?_, ?_, ?_, ?_, ?_, ?_⟩
  · simp [MiniHms.EnableKerberos, MiniHms.init, hk, hp, hkt]
  · simp [MiniHms.EnableKerberos, MiniHms.init, hk, hp, hkt, coreSiteAuthentication]
  · simp [MiniHms.EnableKerberos, MiniHms.init, hk, hp, hkt, hiveSiteSaslEnabled]
  · simp [MiniHms.EnableKerberos, MiniHms.init, hk, hp, hkt]
  · simp [MiniHms.EnableKerberos, MiniHms.init, hk, hp, hkt]
  · intro s path c hmem
    rcases Start_writes w s path c hmem with ⟨hpath, hc⟩ | ⟨hpath, hc⟩
    · constructor
      · intro hpc
        rw [hpath] at hpc
        exact absurd hpc.symm hdistinct
      · intro _
        exact hc
    · constructor
      · intro _
        rw [hc]
        rfl
      · intro hpc
        rw [hpath] at hpc
        exact absurd hpc hdistinct
  · intro s0 h0
    exact ⟨by simp [coreSiteAuthentication, h0], by simp [hiveSiteSaslEnabled, h0]⟩

/-- Witness for C6: concrete Kerberos parameters produce mode `kerberos` and
SASL-enabled `true`; the fresh instance renders `simple` and `false`. -/
theorem kerberos_config_rendering_witness :
    coreSiteAuthentication (MiniHms.EnableKerberos MiniHms.init ("krb5.conf")
        ("hive/127.0.0.1") ("hms.keytab") .kPrivacy).2 = "kerberos" ∧
    hiveSiteSaslEnabled (MiniHms.EnableKerberos MiniHms.init ("krb5.conf")
        ("hive/127.0.0.1") ("hms.keytab") .kPrivacy).2 = "true" ∧
    coreSiteAuthentication MiniHms.init = "simple" ∧
    hiveSiteSaslEnabled MiniHms.init = "false" := by
  have h := kerberos_config_rendering wAllOk ("krb5.conf") ("hive/127.0.0.1") ("hms.keytab")
    .kPrivacy (by decide) (by decide) (by decide)
  exact ⟨h.2.1, h.2.2.1, (h.2.2.2.2.2.2 MiniHms.init rfl).1, (h.2.2.2.2.2.2 MiniHms.init rfl).2⟩
